import Mathlib

/-!
Verification of the NeuralPath synthetic training-data generator
(`generate_training_data.py`) against its natural-language specification.

The script is a single-pass generator: for each simulated day it derives a
twelve-field record from a pseudo-random stream, fixed constants, and two
scalars carried from the previous day; a writer then serialises the records
and prints summary statistics.

Embedding conventions:
* Python floats are modelled as `ℚ`.
* CPython computes `random.uniform a b` as `a + (b - a) * r` where `r` is the
  next `random.random()` draw; the whole pseudo-random stream is therefore a
  function `s : ℕ → ℚ` of draw indices, with draws consumed in exactly the
  order (and under exactly the conditions) in which the source consumes them.
* Python `int(...)` on a float truncates toward zero (`pyTrunc`); Python
  `round` rounds half to even (`pyRound`); `round(x, 1)` is `round1`.
* `datetime.now()` is modelled by its calendar date `todayEpoch : ℤ`, counted
  in days since 1970-01-01; `weekday()` (Monday = 0 … Sunday = 6) and `.month`
  are computed from that epoch day with proleptic-Gregorian arithmetic.
* The observable behaviour of the CSV writer (console lines and raised error)
  is modelled by `save_to_csv`, parametrised over whether the file write
  succeeds; a Python `ZeroDivisionError` is modelled explicitly.
-/

/-- Truncation toward zero, the behaviour of Python `int()` on a float. -/
def pyTrunc (q : ℚ) : ℤ := if q < 0 then ⌈q⌉ else ⌊q⌋

/-- Python 3 `round` to an integer: round half to even. -/
def pyRound (q : ℚ) : ℤ :=
  if q - ⌊q⌋ < 1/2 then ⌊q⌋
  else if (1:ℚ)/2 < q - ⌊q⌋ then ⌊q⌋ + 1
  else if ⌊q⌋ % 2 = 0 then ⌊q⌋ else ⌊q⌋ + 1

/-- Python `round(x, 1)`: round to one decimal digit, half to even. -/
def round1 (q : ℚ) : ℚ := (pyRound (q * 10) : ℚ) / 10

/-- CPython `random.uniform a b` given the underlying `random()` draw `r`. -/
def uniformDraw (a b r : ℚ) : ℚ := a + (b - a) * r

/-- Python `date.weekday()` (Monday = 0 … Sunday = 6) of an epoch day
(days since 1970-01-01, which was a Thursday, i.e. weekday 3). -/
def pythonWeekday (z : ℤ) : ℤ := (z + 3) % 7

/-- Calendar month (1–12) of an epoch day, by the standard proleptic-Gregorian
civil-from-days conversion (valid for all days from 0000-03-01 on, which
covers every date the generator can touch). -/
def monthFromEpochDay (z : ℤ) : ℕ :=
  let days := (z + 719468).toNat
  let doe := days % 146097
  let yoe := (doe - doe / 1460 + doe / 36524 - doe / 146096) / 365
  let doy := doe - (365 * yoe + yoe / 4 - yoe / 100)
  let mp := (5 * doy + 2) / 153
  if mp < 10 then mp + 3 else mp - 9

/-- Source line 29: `medication_start_day = 60`. -/
def medication_start_day : ℕ := 60

/-- Source line 44: `medication_taken = 1 if (on_medication and
random.random() < 0.85) else 0`. The Python `and` short-circuits, so the
draw is consumed only when `on_medication` holds; the returned index is the
next unconsumed draw index. -/
def medCalc (s : ℕ → ℚ) (day : ℕ) (i : ℕ) : Bool × ℕ :=
  if medication_start_day ≤ day then (decide (s i < 17/20), i + 1) else (false, i)

/-- Source line 47: `days_on_meds = max(0, day - medication_start_day) if
medication_taken else 0`. -/
def days_on_meds (day : ℕ) (medication_taken : Bool) : ℤ :=
  if medication_taken then max 0 ((day : ℤ) - (medication_start_day : ℤ)) else 0

/-- Source lines 50–56: `med_effect` is 0 before the medication start day;
from that day on it is `min(1.5, (days_on_meds / 30) * 1.5)`, scaled by `0.3`
when the dose of the current day was not taken. -/
def med_effect (day : ℕ) (medication_taken : Bool) : ℚ :=
  if medication_start_day ≤ day then
    let e := min (3/2) ((days_on_meds day medication_taken : ℚ) / 30 * (3/2))
    if medication_taken then e else e * (3/10)
  else 0

/-- Source lines 61–65: base sleep drawn from `uniform(7.5, 9.0)` on a
weekend and `uniform(6.0, 8.0)` otherwise, plus `med_effect * 0.5`, plus
`uniform(-0.5, 0.5)` noise, clamped into `[4.0, 10.0]`. -/
def sleepHoursCalc (is_weekend : Bool) (med_eff r1 r2 : ℚ) : ℚ :=
  let base_sleep := if is_weekend then uniformDraw (15/2) 9 r1 else uniformDraw 6 8 r1
  max 4 (min 10 (base_sleep + med_eff * (1/2) + uniformDraw (-(1/2)) (1/2) r2))

/-- Source line 68: `int(min(5, max(1, (sleep_hours / 8.0) * 5 +
random.uniform(-1, 1))))` — clamp first, then truncate toward zero. -/
def sleepQualityCalc (sleep_hours noise : ℚ) : ℤ :=
  pyTrunc (min 5 (max 1 (sleep_hours / 8 * 5 + noise)))

/-- Source lines 76–78: one Bernoulli draw at probability `p`; on success one
further `uniform(20, 60)` draw gives the exercise minutes, else 0. -/
def exerciseCalc (s : ℕ → ℚ) (p : ℚ) (i : ℕ) : ℚ × ℕ :=
  if s i < p then (uniformDraw 20 60 (s (i + 1)), i + 2) else (0, i + 1)

/-- Source lines 89–93: caffeine added with probability 0.7, and (weekends
only, short-circuit `and`) alcohol added with probability 0.4. -/
def substanceCalc (s : ℕ → ℚ) (is_weekend : Bool) (i : ℕ) : ℚ × ℕ :=
  let amt1 : ℚ := if s i < 7/10 then 0 + uniformDraw 100 400 (s (i + 1)) else 0
  let i1 : ℕ := if s i < 7/10 then i + 2 else i + 1
  if is_weekend then
    if s i1 < 2/5 then (amt1 + uniformDraw 200 600 (s (i1 + 1)), i1 + 2)
    else (amt1, i1 + 1)
  else (amt1, i1)

/-- All per-day intermediate values of one loop iteration of
`generate_realistic_data` (source lines 38–160), in source order. -/
structure DayCalc where
  dayOfWeek : ℤ
  isWeekend : Bool
  medicationTaken : Bool
  medEffect : ℚ
  sleepHours : ℚ
  qualityNoise : ℚ
  sleepQuality : ℤ
  exerciseMinutes : ℚ
  daylightMinutes : ℚ
  substanceAmount : ℚ
  moodNoise : ℚ
  mood : ℚ
  moodLevel : ℤ
  anxietyLevel : ℤ
  anhedoniaLevel : ℤ
  nextIdx : ℕ

/-- One loop iteration of `generate_realistic_data` (source lines 38–160):
from the stream `s`, the start date, the day index and the two carried
scalars (`previous_sleep`, `previous_mood`), compute every per-day value.
`i0` is the index of the next unconsumed pseudo-random draw. -/
def dayCalc (s : ℕ → ℚ) (startDay : ℤ) (day : ℕ) (previous_sleep : ℚ)
    (previous_mood : ℤ) (i0 : ℕ) : DayCalc :=
  let z := startDay + (day : ℤ)
  let day_of_week : ℤ := pythonWeekday z + 1
  let medication_taken := (medCalc s day i0).1
  let i1 := (medCalc s day i0).2
  let med_eff := med_effect day medication_taken
  let is_weekend : Bool := day_of_week == 1 || day_of_week == 7
  let sleep_hours := sleepHoursCalc is_weekend med_eff (s i1) (s (i1 + 1))
  let quality_noise := uniformDraw (-1) 1 (s (i1 + 2))
  let sleep_quality := sleepQualityCalc sleep_hours quality_noise
  let exercise_probability :=
    (if is_weekend then (3:ℚ)/10 else 3/20)
      + (if 0 < day ∧ 3 ≤ previous_mood then (1:ℚ)/5 else 0)
  let exercise_minutes := (exerciseCalc s exercise_probability (i1 + 3)).1
  let i2 := (exerciseCalc s exercise_probability (i1 + 3)).2
  let seasonal_factor : ℚ :=
    if 5 ≤ monthFromEpochDay z ∧ monthFromEpochDay z ≤ 8 then 3/2 else 7/10
  let base_daylight := uniformDraw 60 180 (s i2) * seasonal_factor
  let daylight_minutes :=
    max 15 (min 300 (if is_weekend then base_daylight else base_daylight * (3/5)))
  let substance_amount := (substanceCalc s is_weekend (i2 + 1)).1
  let i3 := (substanceCalc s is_weekend (i2 + 1)).2
  let mood_noise := uniformDraw (-(3/10)) (3/10) (s i3)
  let mood := 2 + med_eff + (previous_sleep - 6) * (1/2)
      + (if 0 < exercise_minutes then exercise_minutes / 60 * (4/5) else 0)
      + daylight_minutes / 120 * (2/5) + (-(substance_amount / 500)) * (3/10)
      + (if day_of_week = 2 then -(3/10) else 0)
      + ((previous_mood : ℚ) - 3) * (1/5) + mood_noise
  let mood_level := max 1 (min 5 (pyRound mood))
  let anxiety := 3 + (-med_eff) * (4/5) + (7 - sleep_hours) * (3/10)
      + (-(exercise_minutes / 60)) * (1/2) + substance_amount / 500 * (1/2)
      + uniformDraw (-(2/5)) (2/5) (s (i3 + 1))
  let anxiety_level := max 0 (min 4 (pyRound anxiety))
  let anhedonia := 5/2 + (-med_eff) * (7/10) + (-(exercise_minutes / 60)) * (2/5)
      + (7 - sleep_hours) * (1/5) + uniformDraw (-(3/10)) (3/10) (s (i3 + 2))
  let anhedonia_level := max 0 (min 4 (pyRound anhedonia))
  { dayOfWeek := day_of_week
    isWeekend := is_weekend
    medicationTaken := medication_taken
    medEffect := med_eff
    sleepHours := sleep_hours
    qualityNoise := quality_noise
    sleepQuality := sleep_quality
    exerciseMinutes := exercise_minutes
    daylightMinutes := daylight_minutes
    substanceAmount := substance_amount
    moodNoise := mood_noise
    mood := mood
    moodLevel := mood_level
    anxietyLevel := anxiety_level
    anhedoniaLevel := anhedonia_level
    nextIdx := i3 + 3 }

/-- One emitted CSV record (source lines 167–180). -/
structure DayRecord where
  moodLevel : ℤ
  anxietyLevel : ℤ
  anhedoniaLevel : ℤ
  sleepHours : ℚ
  sleepQuality : ℤ
  daylightMinutes : ℚ
  exerciseMinutes : ℚ
  medicationTaken : ℤ
  substanceAmount : ℚ
  dayOfWeek : ℤ
  previousDaySleep : ℚ
  previousDayMood : ℤ
  deriving DecidableEq, Repr, Inhabited

/-- Record emission (source lines 162–180). The source assigns
`previous_sleep = sleep_hours` and `previous_mood = mood_level` (lines
162–164) BEFORE appending the record, so the emitted `previousDaySleep` /
`previousDayMood` read the freshly overwritten carries, i.e. the values of
the current day (guarded by `if day > 0 else 0`). -/
def mkRecord (c : DayCalc) (day : ℕ) : DayRecord :=
  { moodLevel := c.moodLevel
    anxietyLevel := c.anxietyLevel
    anhedoniaLevel := c.anhedoniaLevel
    sleepHours := round1 c.sleepHours
    sleepQuality := c.sleepQuality
    daylightMinutes := round1 c.daylightMinutes
    exerciseMinutes := round1 c.exerciseMinutes
    medicationTaken := if c.medicationTaken then 1 else 0
    substanceAmount := round1 c.substanceAmount
    dayOfWeek := c.dayOfWeek
    previousDaySleep := if 0 < day then round1 c.sleepHours else 0
    previousDayMood := if 0 < day then c.moodLevel else 0 }

/-- The generator loop (source lines 38–180): `rem` days remaining, current
day index `day`, carried scalars and next draw index. -/
def genFrom (s : ℕ → ℚ) (startDay : ℤ) :
    ℕ → ℕ → ℚ → ℤ → ℕ → List DayRecord
  | 0, _, _, _, _ => []
  | rem + 1, day, previous_sleep, previous_mood, i =>
    let c := dayCalc s startDay day previous_sleep previous_mood i
    mkRecord c day :: genFrom s startDay rem (day + 1) c.sleepHours c.moodLevel c.nextIdx

/-- Source lines 21–182, `generate_realistic_data(num_days)`: the start date
is `today - num_days` days (line 26), the carried scalars start at 6.5 and 2
(lines 35–36), and the stream is consumed from index 0. -/
def generate_realistic_data (s : ℕ → ℚ) (num_days : ℕ) (todayEpoch : ℤ) :
    List DayRecord :=
  genFrom s (todayEpoch - (num_days : ℤ)) num_days 0 (13/2) 2 0

/-- Python exceptions the writer can raise. -/
inductive PyErr
  | ioError
  | zeroDivisionError
  deriving DecidableEq, Repr

/-- One console line printed by `save_to_csv` (source lines 196–208),
abstracted to its constructor and numeric payload. -/
inductive ConsoleLine
  | generatedDays (n : ℕ)
  | savedTo
  | statsHeader
  | daysOnMedication (n : ℕ)
  | avgMoodBefore (x : ℚ)
  | avgMoodAfter (x : ℚ)
  | moodImprovement (x : ℚ)
  deriving DecidableEq, Repr

/-- Source line 200: `sum(1 for d in data if d['medicationTaken'] == 1)`. -/
def med_days (data : List DayRecord) : ℕ :=
  data.countP (fun d => d.medicationTaken == 1)

/-- Source line 201: `sum(d['moodLevel'] for d in data[:60]) / 60` — the
divisor is the constant 60, not the number of records actually summed. -/
def avg_mood_before (data : List DayRecord) : ℚ :=
  ((data.take 60).map (fun d => (d.moodLevel : ℚ))).sum / 60

/-- Source line 202: `sum(d['moodLevel'] for d in data[90:]) / (len(data) - 90)`. -/
def avg_mood_after (data : List DayRecord) : ℚ :=
  ((data.drop 90).map (fun d => (d.moodLevel : ℚ))).sum / ((data.length : ℚ) - 90)

/-- Source lines 184–208, `save_to_csv`: the file is written inside the
`with` block; every `print` comes after it, so a failed write (modelled by
`writeOk = false`) propagates the I/O error with nothing printed. With a
successful write, lines 196–197 print first; then line 202 divides by
`len(data) - 90`, which raises `ZeroDivisionError` exactly when
`len(data) = 90` (for any other length the Python float division is total,
even with a negative denominator, and so is ℚ division); otherwise the
statistics lines print. The result pairs the printed lines with the raised
exception, if any. -/
def save_to_csv (data : List DayRecord) (writeOk : Bool) :
    List ConsoleLine × Option PyErr :=
  if writeOk then
    if data.length = 90 then
      ([ConsoleLine.generatedDays data.length, ConsoleLine.savedTo],
        some PyErr.zeroDivisionError)
    else
      ([ConsoleLine.generatedDays data.length, ConsoleLine.savedTo,
        ConsoleLine.statsHeader,
        ConsoleLine.daysOnMedication (med_days data),
        ConsoleLine.avgMoodBefore (avg_mood_before data),
        ConsoleLine.avgMoodAfter (avg_mood_after data),
        ConsoleLine.moodImprovement (avg_mood_after data - avg_mood_before data)],
        none)
  else ([], some PyErr.ioError)

/-- The clamp ranges the specification states for every bounded emitted
field (spec §3 table): mood 1–5, anxiety 0–4, anhedonia 0–4, sleep hours
4.0–10.0, sleep quality 1–5, daylight 15–300, exercise 0 or 20–60,
day of week 1–7. -/
def recordBounds (r : DayRecord) : Prop :=
  1 ≤ r.moodLevel ∧ r.moodLevel ≤ 5 ∧
  0 ≤ r.anxietyLevel ∧ r.anxietyLevel ≤ 4 ∧
  0 ≤ r.anhedoniaLevel ∧ r.anhedoniaLevel ≤ 4 ∧
  4 ≤ r.sleepHours ∧ r.sleepHours ≤ 10 ∧
  1 ≤ r.sleepQuality ∧ r.sleepQuality ≤ 5 ∧
  15 ≤ r.daylightMinutes ∧ r.daylightMinutes ≤ 300 ∧
  (r.exerciseMinutes = 0 ∨ (20 ≤ r.exerciseMinutes ∧ r.exerciseMinutes ≤ 60)) ∧
  1 ≤ r.dayOfWeek ∧ r.dayOfWeek ≤ 7

/-- The medication-effect formula exactly as claim C5 words it: with
`daysOnMeds = max(0, day - medicationStartDay)` when the dose is taken and 0
otherwise, the effect is `min(1.5, (daysOnMeds/30) * 1.5)` on or after the
start day (0 before), scaled by 0.3 on an on-medication day whose dose was
not taken. -/
def medEffectClaim (day : ℕ) (taken : Bool) : ℚ :=
  let daysOn : ℤ := if taken then max 0 ((day : ℤ) - (medication_start_day : ℤ)) else 0
  if medication_start_day ≤ day then
    if taken then min (3/2) ((daysOn : ℚ) / 30 * (3/2))
    else min (3/2) ((daysOn : ℚ) / 30 * (3/2)) * (3/10)
  else 0

/-- The mood linear combination exactly as claim C6 words it: 2.0 baseline
+ medEffect + (previousSleep - 6.0) * 0.5 + exercise term + daylight term
- substance term + Monday term + momentum term + noise. -/
def moodClaimSum (medEff previousSleep exercise_minutes daylight_minutes
    substance_amount : ℚ) (day_of_week : ℤ) (previous_mood : ℤ) (noise : ℚ) : ℚ :=
  2 + medEff + (previousSleep - 6) * (1/2)
    + (if 0 < exercise_minutes then exercise_minutes / 60 * (4/5) else 0)
    + daylight_minutes / 120 * (2/5) + (-(substance_amount / 500)) * (3/10)
    + (if day_of_week = 2 then -(3/10) else 0)
    + ((previous_mood : ℚ) - 3) * (1/5) + noise

/-- The all-zeros pseudo-random stream: every `random()` draw returns 0, so
every `uniform(a, b)` returns `a`. -/
def zeroStream : ℕ → ℚ := fun _ => 0

/-- The constant one-half pseudo-random stream. -/
def halfStream : ℕ → ℚ := fun _ => 1/2

/-- A fixed record with mood level 3, used to exercise the writer. -/
def sampleRecord : DayRecord :=
  { moodLevel := 3, anxietyLevel := 1, anhedoniaLevel := 1, sleepHours := 7
    sleepQuality := 4, daylightMinutes := 100, exerciseMinutes := 0
    medicationTaken := 0, substanceAmount := 0, dayOfWeek := 3
    previousDaySleep := 7, previousDayMood := 3 }

/-! Helper lemmas about the numeric conversions. -/

theorem le_pyRound {m : ℤ} {q : ℚ} (h : (m : ℚ) ≤ q) : m ≤ pyRound q := by
  have hf : m ≤ ⌊q⌋ := Int.le_floor.mpr h
  unfold pyRound
  split
  · exact hf
  split
  · omega
  split
  · exact hf
  · omega

theorem pyRound_le {m : ℤ} {q : ℚ} (h : q ≤ (m : ℚ)) : pyRound q ≤ m := by
  have hf : ⌊q⌋ ≤ m := by
    have h2 := Int.floor_mono h
    rwa [Int.floor_intCast] at h2
  have hsucc : (1:ℚ)/2 ≤ q - ⌊q⌋ → ⌊q⌋ + 1 ≤ m := by
    intro hr
    have h1 : (⌊q⌋ : ℚ) + 1/2 ≤ (m : ℚ) := by linarith
    have h2 : (⌊q⌋ : ℚ) < (m : ℚ) := by linarith
    have h3 : ⌊q⌋ < m := by exact_mod_cast h2
    omega
  unfold pyRound
  split
  · exact hf
  rename_i hlt
  split
  · rename_i hgt
    exact hsucc (le_of_lt hgt)
  split
  · exact hf
  · exact hsucc (not_lt.mp hlt)

theorem pyRound_intCast (n : ℤ) : pyRound (n : ℚ) = n := by
  have h1 : n ≤ pyRound (n : ℚ) := le_pyRound le_rfl
  have h2 : pyRound (n : ℚ) ≤ n := pyRound_le le_rfl
  omega

theorem pyTrunc_bounds {lo hi : ℤ} {q : ℚ} (hlo : 0 ≤ lo) (h1 : (lo : ℚ) ≤ q)
    (h2 : q ≤ (hi : ℚ)) : lo ≤ pyTrunc q ∧ pyTrunc q ≤ hi := by
  have hq : ¬ q < 0 := not_lt.mpr (le_trans (by exact_mod_cast hlo) h1)
  unfold pyTrunc
  rw [if_neg hq]
  refine ⟨Int.le_floor.mpr h1, ?_⟩
  have h3 := Int.floor_mono h2
  rwa [Int.floor_intCast] at h3

theorem round1_bounds {lo hi : ℤ} {q : ℚ} (h1 : (lo : ℚ)/10 ≤ q)
    (h2 : q ≤ (hi : ℚ)/10) : (lo : ℚ)/10 ≤ round1 q ∧ round1 q ≤ (hi : ℚ)/10 := by
  have ha : (lo : ℚ) ≤ q * 10 := by linarith
  have hb : q * 10 ≤ (hi : ℚ) := by linarith
  have h3 : (lo : ℚ) ≤ (pyRound (q * 10) : ℚ) := by exact_mod_cast le_pyRound ha
  have h4 : (pyRound (q * 10) : ℚ) ≤ (hi : ℚ) := by exact_mod_cast pyRound_le hb
  unfold round1
  constructor <;> linarith

theorem round1_zero : round1 0 = 0 := by
  have h : ((0:ℤ) : ℚ) = (0:ℚ) * 10 := by norm_num
  rw [round1, ← h, pyRound_intCast]
  norm_num

theorem round1_eq_intCast {q : ℚ} {n : ℤ} (h : q * 10 = (n : ℚ)) :
    round1 q = (n : ℚ) / 10 := by
  rw [round1, h, pyRound_intCast]

/-! Bounds of every generated record. -/

theorem clampZ_bounds (lo hi x : ℤ) (h : lo ≤ hi) :
    lo ≤ max lo (min hi x) ∧ max lo (min hi x) ≤ hi :=
  ⟨le_max_left _ _, max_le h (min_le_left _ _)⟩

theorem mkRecord_bounds (s : ℕ → ℚ) (hs : ∀ j, 0 ≤ s j ∧ s j < 1)
    (startDay : ℤ) (day : ℕ) (ps : ℚ) (pm : ℤ) (i : ℕ) :
    recordBounds (mkRecord (dayCalc s startDay day ps pm i) day) := by
  unfold recordBounds
  refine ⟨?_, ?_, ?_, ?_, ?_, ?_, ?_, ?_, ?_, ?_, ?_, ?_, ?_, ?_, ?_⟩
  · exact le_max_left _ _
  · exact (clampZ_bounds 1 5 _ (by omega)).2
  · exact le_max_left _ _
  · exact (clampZ_bounds 0 4 _ (by omega)).2
  · exact le_max_left _ _
  · exact (clampZ_bounds 0 4 _ (by omega)).2
  · obtain ⟨x, hx⟩ : ∃ x, (mkRecord (dayCalc s startDay day ps pm i) day).sleepHours
        = round1 (max 4 (min 10 x)) := ⟨_, rfl⟩
    rw [hx]
    have h1 : (4:ℚ) ≤ max 4 (min 10 x) := le_max_left _ _
    have hb := @round1_bounds 40 100 (max 4 (min 10 x)) (by push_cast; linarith)
      (by push_cast; linarith [max_le (show (4:ℚ) ≤ 10 by norm_num) (min_le_left (10:ℚ) x)])
    have h2 := hb.1
    push_cast at h2
    linarith
  · obtain ⟨x, hx⟩ : ∃ x, (mkRecord (dayCalc s startDay day ps pm i) day).sleepHours
        = round1 (max 4 (min 10 x)) := ⟨_, rfl⟩
    rw [hx]
    have h1 : (4:ℚ) ≤ max 4 (min 10 x) := le_max_left _ _
    have h2 : max 4 (min 10 x) ≤ 10 := max_le (by norm_num) (min_le_left _ _)
    have hb := @round1_bounds 40 100 (max 4 (min 10 x)) (by push_cast; linarith)
      (by push_cast; linarith)
    have h3 := hb.2
    push_cast at h3
    linarith
  · obtain ⟨x, hx⟩ : ∃ x, (mkRecord (dayCalc s startDay day ps pm i) day).sleepQuality
        = pyTrunc (min 5 (max 1 x)) := ⟨_, rfl⟩
    rw [hx]
    have h1 : ((1:ℤ):ℚ) ≤ min 5 (max 1 x) := by
      push_cast
      exact le_min (by norm_num) (le_max_left _ _)
    have h2 : min (5:ℚ) (max 1 x) ≤ ((5:ℤ):ℚ) := by
      exact_mod_cast min_le_left (5:ℚ) (max 1 x)
    exact (pyTrunc_bounds (by norm_num) h1 h2).1
  · obtain ⟨x, hx⟩ : ∃ x, (mkRecord (dayCalc s startDay day ps pm i) day).sleepQuality
        = pyTrunc (min 5 (max 1 x)) := ⟨_, rfl⟩
    rw [hx]
    have h1 : ((1:ℤ):ℚ) ≤ min 5 (max 1 x) := by
      push_cast
      exact le_min (by norm_num) (le_max_left _ _)
    have h2 : min (5:ℚ) (max 1 x) ≤ ((5:ℤ):ℚ) := by
      exact_mod_cast min_le_left (5:ℚ) (max 1 x)
    exact (pyTrunc_bounds (by norm_num) h1 h2).2
  · obtain ⟨x, hx⟩ : ∃ x, (mkRecord (dayCalc s startDay day ps pm i) day).daylightMinutes
        = round1 (max 15 (min 300 x)) := ⟨_, rfl⟩
    rw [hx]
    have h1 : (15:ℚ) ≤ max 15 (min 300 x) := le_max_left _ _
    have h2 : max 15 (min 300 x) ≤ 300 := max_le (by norm_num) (min_le_left _ _)
    have hb := @round1_bounds 150 3000 (max 15 (min 300 x)) (by push_cast; linarith)
      (by push_cast; linarith)
    have h3 := hb.1
    push_cast at h3
    linarith
  · obtain ⟨x, hx⟩ : ∃ x, (mkRecord (dayCalc s startDay day ps pm i) day).daylightMinutes
        = round1 (max 15 (min 300 x)) := ⟨_, rfl⟩
    rw [hx]
    have h1 : (15:ℚ) ≤ max 15 (min 300 x) := le_max_left _ _
    have h2 : max 15 (min 300 x) ≤ 300 := max_le (by norm_num) (min_le_left _ _)
    have hb := @round1_bounds 150 3000 (max 15 (min 300 x)) (by push_cast; linarith)
      (by push_cast; linarith)
    have h3 := hb.2
    push_cast at h3
    linarith
  · obtain ⟨p, j, hx⟩ : ∃ p j, (mkRecord (dayCalc s startDay day ps pm i) day).exerciseMinutes
        = round1 (exerciseCalc s p j).1 := ⟨_, _, rfl⟩
    rw [hx]
    unfold exerciseCalc
    by_cases h : s j < p
    · rw [if_pos h]
      right
      have hr0 := (hs (j + 1)).1
      have hr1 := (hs (j + 1)).2
      have h1 : (20:ℚ) ≤ uniformDraw 20 60 (s (j + 1)) := by
        unfold uniformDraw
        nlinarith
      have h2 : uniformDraw 20 60 (s (j + 1)) ≤ 60 := by
        unfold uniformDraw
        nlinarith
      have hb := @round1_bounds 200 600 (uniformDraw 20 60 (s (j + 1)))
        (by push_cast; linarith) (by push_cast; linarith)
      have hb1 := hb.1
      have hb2 := hb.2
      push_cast at hb1 hb2
      constructor <;> [linarith; linarith]
    · rw [if_neg h]
      left
      exact round1_zero
  · have hx : (mkRecord (dayCalc s startDay day ps pm i) day).dayOfWeek
        = pythonWeekday (startDay + (day : ℤ)) + 1 := rfl
    rw [hx]
    unfold pythonWeekday
    have h1 : 0 ≤ (startDay + (day : ℤ) + 3) % 7 := Int.emod_nonneg _ (by norm_num)
    omega
  · have hx : (mkRecord (dayCalc s startDay day ps pm i) day).dayOfWeek
        = pythonWeekday (startDay + (day : ℤ)) + 1 := rfl
    rw [hx]
    unfold pythonWeekday
    have h2 : (startDay + (day : ℤ) + 3) % 7 < 7 := Int.emod_lt_of_pos _ (by norm_num)
    omega

theorem genFrom_bounds (s : ℕ → ℚ) (hs : ∀ j, 0 ≤ s j ∧ s j < 1) (startDay : ℤ) :
    ∀ (rem day : ℕ) (ps : ℚ) (pm : ℤ) (i : ℕ) (r : DayRecord),
      r ∈ genFrom s startDay rem day ps pm i → recordBounds r := by
  intro rem
  induction rem with
  | zero =>
    intro day ps pm i r hr
    simp [genFrom] at hr
  | succ n ih =>
    intro day ps pm i r hr
    rw [genFrom] at hr
    rcases List.mem_cons.mp hr with h | h
    · subst h
      exact mkRecord_bounds s hs startDay day ps pm i
    · exact ih _ _ _ _ _ h

/-! Medication is never taken before the start day. -/

theorem medCalc_before_start {s : ℕ → ℚ} {day i : ℕ}
    (h : day < medication_start_day) : (medCalc s day i).1 = false := by
  unfold medCalc
  rw [if_neg (by omega)]

theorem genFrom_medication_zero (s : ℕ → ℚ) (startDay : ℤ) :
    ∀ (k rem day : ℕ) (ps : ℚ) (pm : ℤ) (i : ℕ) (r : DayRecord),
      (genFrom s startDay rem day ps pm i).get? k = some r →
      day + k < medication_start_day → r.medicationTaken = 0 := by
  intro k
  induction k with
  | zero =>
    intro rem day ps pm i r hr hday
    match rem with
    | 0 => simp [genFrom] at hr
    | n + 1 =>
      rw [genFrom] at hr
      simp only [List.get?_cons_zero, Option.some.injEq] at hr
      subst hr
      have h1 : (mkRecord (dayCalc s startDay day ps pm i) day).medicationTaken
          = if (dayCalc s startDay day ps pm i).medicationTaken then 1 else 0 := rfl
      have h2 : (dayCalc s startDay day ps pm i).medicationTaken
          = (medCalc s day i).1 := rfl
      rw [h1, h2, medCalc_before_start (by omega)]
      rfl
  | succ n ih =>
    intro rem day ps pm i r hr hday
    match rem with
    | 0 => simp [genFrom] at hr
    | m + 1 =>
      rw [genFrom] at hr
      simp only [List.get?_cons_succ] at hr
      exact ih _ _ _ _ _ _ hr (by omega)

/-! Concrete values of `round1` used by the counterexample evaluations. -/

theorem round1_eleven_halves : round1 (11/2 : ℚ) = 11/2 := by
  rw [round1_eq_intCast (show (11/2 : ℚ) * 10 = ((55:ℤ):ℚ) by norm_num)]
  norm_num

theorem round1_seven : round1 (7 : ℚ) = 7 := by
  rw [round1_eq_intCast (show (7 : ℚ) * 10 = ((70:ℤ):ℚ) by norm_num)]
  norm_num

/-! The ten claims. -/

/-- Claim C1 (code bug, concrete evaluation): with the all-zeros stream,
two generated days, and today = epoch day 6 (so day 0 falls on Monday
1970-01-05 and day 1 on Tuesday 1970-01-06), record 1 emits
`previousDaySleep` equal to its OWN `sleepHours` (5.5h) — not the
`sleepHours` of record 0 (7.0h) as the claim states — and likewise emits
`previousDayMood` equal to its own `moodLevel`. The source overwrites the
carried scalars with the current-day values before appending the record. -/
theorem previousDay_fields_echo_current_day :
    ((generate_realistic_data zeroStream 2 6).get? 1).map DayRecord.previousDaySleep
      = ((generate_realistic_data zeroStream 2 6).get? 1).map DayRecord.sleepHours ∧
    ((generate_realistic_data zeroStream 2 6).get? 1).map DayRecord.previousDayMood
      = ((generate_realistic_data zeroStream 2 6).get? 1).map DayRecord.moodLevel ∧
    ((generate_realistic_data zeroStream 2 6).get? 1).map DayRecord.previousDaySleep
      = some (11/2) ∧
    ((generate_realistic_data zeroStream 2 6).get? 0).map DayRecord.sleepHours
      = some 7 ∧
    (11/2 : ℚ) ≠ 7 := by
  refine ⟨rfl, rfl, ?_, ?_, by norm_num⟩
  · obtain ⟨ps, pm, ii, h1⟩ : ∃ ps pm ii,
        ((generate_realistic_data zeroStream 2 6).get? 1).map DayRecord.previousDaySleep
          = some (round1 (dayCalc zeroStream (6 - ((2:ℕ):ℤ)) 1 ps pm ii).sleepHours) :=
      ⟨_, _, _, rfl⟩
    have hs1 : (dayCalc zeroStream (6 - ((2:ℕ):ℤ)) 1 ps pm ii).sleepHours = 11/2 := by
      simp [dayCalc, sleepHoursCalc, medCalc, uniformDraw, zeroStream, pythonWeekday,
        medication_start_day, med_effect, days_on_meds]
      norm_num [min_def, max_def]
    rw [h1, hs1, round1_eleven_halves]
  · have h0 : ((generate_realistic_data zeroStream 2 6).get? 0).map DayRecord.sleepHours
        = some (round1 (dayCalc zeroStream (6 - ((2:ℕ):ℤ)) 0 (13/2) 2 0).sleepHours) := rfl
    have hs0 : (dayCalc zeroStream (6 - ((2:ℕ):ℤ)) 0 (13/2) 2 0).sleepHours = 7 := by
      simp [dayCalc, sleepHoursCalc, medCalc, uniformDraw, zeroStream, pythonWeekday,
        medication_start_day, med_effect, days_on_meds]
      norm_num [min_def, max_def]
    rw [h0, hs0, round1_seven]

/-- Claim C2 (code bug, concrete evaluation): `dayOfWeek` is Python
`weekday() + 1`, i.e. Monday = 1 … Sunday = 7, not Sunday = 1 … Saturday = 7
as the claim (and the source comments) state. Concretely: for a run whose
single day falls on Sunday 1970-01-04 (epoch day 3, Python weekday 6) the
emitted `dayOfWeek` is 7, not 1; the weekend branch (`dayOfWeek ∈ {1,7}`)
fires on Monday 1970-01-05 and does NOT fire on Saturday 1970-01-03; hence
the `dayOfWeek == 2` mood penalty fires on Tuesday, not Monday. -/
theorem dayOfWeek_maps_monday_to_one :
    ((generate_realistic_data halfStream 1 4).get? 0).map DayRecord.dayOfWeek = some 7 ∧
    pythonWeekday 3 = 6 ∧
    (dayCalc halfStream 4 0 (13/2) 2 0).isWeekend = true ∧
    (dayCalc halfStream 2 0 (13/2) 2 0).isWeekend = false :=
  ⟨by decide, by decide, by decide, by decide⟩

/-- Claim C3, counterexample: the generated record sequence is NOT a function
of the seed and `numDays` alone — with the same stream and the same
`numDays = 1`, running on epoch day 4 and on epoch day 5 yields different
records (the start date `now - numDays` enters via `dayOfWeek`). -/
theorem generator_output_depends_on_current_date :
    generate_realistic_data halfStream 1 4 ≠ generate_realistic_data halfStream 1 5 := by
  intro h
  have h1 : ((generate_realistic_data halfStream 1 4).get? 0).map DayRecord.dayOfWeek
      = ((generate_realistic_data halfStream 1 5).get? 0).map DayRecord.dayOfWeek := by
    rw [h]
  have h2 : ((generate_realistic_data halfStream 1 4).get? 0).map DayRecord.dayOfWeek
      = some 7 := by decide
  have h3 : ((generate_realistic_data halfStream 1 5).get? 0).map DayRecord.dayOfWeek
      = some 1 := by decide
  rw [h2, h3] at h1
  exact absurd h1 (by decide)

/-- Claim C3, amended: two runs with the same pseudo-random stream, the same
`numDays` AND the same current date produce identical record sequences — the
generator is a deterministic function of exactly these three inputs. -/
theorem generator_deterministic_given_date (s s2 : ℕ → ℚ) (n n2 : ℕ) (t t2 : ℤ)
    (hs : s = s2) (hn : n = n2) (ht : t = t2) :
    generate_realistic_data s n t = generate_realistic_data s2 n2 t2 := by
  subst hs
  subst hn
  subst ht
  rfl

theorem generator_deterministic_given_date_witness :
    generate_realistic_data halfStream 1 4 = generate_realistic_data halfStream 1 4 :=
  generator_deterministic_given_date halfStream halfStream 1 1 4 4 rfl rfl rfl

/-- Claim C4: for every stream of `random()` draws (each in `[0, 1)`), every
day count and every current date, every emitted record keeps each bounded
field in its documented clamp range: mood 1–5, anxiety 0–4, anhedonia 0–4,
sleep hours 4–10, sleep quality 1–5, daylight 15–300, exercise 0 or 20–60,
day of week 1–7. -/
theorem record_fields_within_bounds (s : ℕ → ℚ) (hs : ∀ j, 0 ≤ s j ∧ s j < 1)
    (num_days : ℕ) (todayEpoch : ℤ) (r : DayRecord)
    (hr : r ∈ generate_realistic_data s num_days todayEpoch) : recordBounds r :=
  genFrom_bounds s hs _ num_days 0 (13/2) 2 0 r hr

theorem record_fields_within_bounds_witness :
    recordBounds ((generate_realistic_data halfStream 1 4).headI) :=
  record_fields_within_bounds halfStream
    (fun _ => ⟨by norm_num [halfStream], by norm_num [halfStream]⟩) 1 4 _
    (by simp [generate_realistic_data, genFrom])

/-- Claim C5: the medication effect computed by the generator equals the
formula the claim states — `daysOnMeds = max(0, day - 60)` when the dose is
taken and 0 otherwise; `medEffect = min(1.5, (daysOnMeds/30) * 1.5)` on or
after the start day and 0 before; scaled by 0.3 (recompute-then-dampen, on
the current-day adherence flag) when the due dose was not taken — and the
per-day computation uses exactly that function of the day and the
current-day `medicationTaken` flag. -/
theorem med_effect_matches_claim :
    (∀ (day : ℕ) (taken : Bool), med_effect day taken = medEffectClaim day taken) ∧
    (∀ (s : ℕ → ℚ) (startDay : ℤ) (day : ℕ) (ps : ℚ) (pm : ℤ) (i : ℕ),
      (dayCalc s startDay day ps pm i).medEffect
        = med_effect day (dayCalc s startDay day ps pm i).medicationTaken) := by
  constructor
  · intro day taken
    unfold med_effect medEffectClaim days_on_meds
    cases taken <;> simp
  · intro s st day ps pm i
    rfl

/-- Claim C6: on every day, `moodLevel` is the round-then-clamp into `[1,5]`
of exactly the claimed sum — baseline 2.0 + medEffect + sleep term +
exercise term + daylight term - substance term + Monday term + momentum term
+ the uniform `[-0.3, 0.3]` noise draw — evaluated at the internal (raw)
per-day quantities and the carried previous-day sleep and mood; the emitted
record field equals that internal value. -/
theorem mood_level_matches_claim_formula (s : ℕ → ℚ) (startDay : ℤ) (day : ℕ)
    (ps : ℚ) (pm : ℤ) (i : ℕ) :
    (dayCalc s startDay day ps pm i).moodLevel
      = max 1 (min 5 (pyRound (moodClaimSum
          (dayCalc s startDay day ps pm i).medEffect ps
          (dayCalc s startDay day ps pm i).exerciseMinutes
          (dayCalc s startDay day ps pm i).daylightMinutes
          (dayCalc s startDay day ps pm i).substanceAmount
          (dayCalc s startDay day ps pm i).dayOfWeek pm
          (dayCalc s startDay day ps pm i).moodNoise)))
    ∧ (mkRecord (dayCalc s startDay day ps pm i) day).moodLevel
        = (dayCalc s startDay day ps pm i).moodLevel :=
  ⟨rfl, rfl⟩

/-- Claim C7: on every day, `sleepQuality` first clamps
`(sleepHours/8) * 5 + noise` into `[1, 5]` and then truncates toward zero
(`pyTrunc`), and the emitted field equals that value; truncation differs
from round-to-nearest, e.g. at 4.7 truncate-after-clamp gives 4 while
round-then-clamp (the mood/anxiety/anhedonia conversion) gives 5. -/
theorem sleep_quality_truncates_after_clamp :
    (∀ (s : ℕ → ℚ) (startDay : ℤ) (day : ℕ) (ps : ℚ) (pm : ℤ) (i : ℕ),
      (dayCalc s startDay day ps pm i).sleepQuality
        = pyTrunc (min 5 (max 1 ((dayCalc s startDay day ps pm i).sleepHours / 8 * 5
            + (dayCalc s startDay day ps pm i).qualityNoise))) ∧
      (mkRecord (dayCalc s startDay day ps pm i) day).sleepQuality
        = (dayCalc s startDay day ps pm i).sleepQuality) ∧
    pyTrunc (min 5 (max 1 (47/10))) = 4 ∧
    max 1 (min 5 (pyRound (47/10))) = 5 := by
  refine ⟨fun s st day ps pm i => ⟨rfl, rfl⟩, ?_, ?_⟩
  · have h1 : min (5:ℚ) (max 1 (47/10)) = 47/10 := by
      rw [max_eq_right (by norm_num), min_eq_right (by norm_num)]
    rw [h1]
    unfold pyTrunc
    rw [if_neg (by norm_num), Int.floor_eq_iff]
    norm_num
  · have hf : ⌊(47/10 : ℚ)⌋ = 4 := by
      rw [Int.floor_eq_iff]
      norm_num
    have h2 : pyRound (47/10 : ℚ) = 5 := by
      unfold pyRound
      rw [hf, if_neg (by norm_num), if_pos (by norm_num)]
      decide
    rw [h2]
    decide

/-- Claim C8: whatever the pseudo-random draws, the day count and the date,
every record whose day index is below `medication_start_day` (= 60) emits
`medicationTaken = 0`. -/
theorem no_medication_before_start_day (s : ℕ → ℚ) (num_days : ℕ) (todayEpoch : ℤ)
    (k : ℕ) (r : DayRecord)
    (hr : (generate_realistic_data s num_days todayEpoch).get? k = some r)
    (hk : k < medication_start_day) : r.medicationTaken = 0 :=
  genFrom_medication_zero s _ k num_days 0 (13/2) 2 0 r hr (by omega)

theorem no_medication_before_start_day_witness :
    ((generate_realistic_data halfStream 1 4).headI).medicationTaken = 0 :=
  no_medication_before_start_day halfStream 1 4 0 _ rfl
    (by norm_num [medication_start_day])

/-- Claim C9: if the file write fails with an I/O error, the writer prints
nothing — the error propagates with an empty console — and conversely any
printed console line implies the write succeeded: every summary line is
emitted only after a completed write. -/
theorem no_summary_after_failed_write :
    (∀ data : List DayRecord, save_to_csv data false = ([], some PyErr.ioError)) ∧
    (∀ (data : List DayRecord) (writeOk : Bool),
      (save_to_csv data writeOk).1 ≠ [] → writeOk = true) := by
  constructor
  · intro data
    rfl
  · intro data ok h
    cases ok
    · exact absurd rfl h
    · rfl

theorem no_summary_after_failed_write_witness :
    save_to_csv [] false = ([], some PyErr.ioError) ∧ true = true :=
  ⟨no_summary_after_failed_write.1 [],
   no_summary_after_failed_write.2 [] true (by simp [save_to_csv])⟩

/-- Claim C10: the writer statistics are safe only above 90 records — with
exactly 90 records the divisor `len(data) - 90` is zero and `save_to_csv`
raises `ZeroDivisionError` (after the first two prints); with more than 90
records no error is raised; and with fewer than 60 records the printed
average-mood-before divides the sum of ALL moods by the constant 60, which
(witnessed by a concrete one-record dataset) is not the mean of the
records actually present. -/
theorem stats_division_behavior :
    (∀ data : List DayRecord, data.length = 90 →
      save_to_csv data true
        = ([ConsoleLine.generatedDays 90, ConsoleLine.savedTo],
            some PyErr.zeroDivisionError)) ∧
    (∀ data : List DayRecord, 90 < data.length → (save_to_csv data true).2 = none) ∧
    (∀ data : List DayRecord, data.length < 60 →
      avg_mood_before data = (data.map (fun d => (d.moodLevel : ℚ))).sum / 60) ∧
    avg_mood_before [sampleRecord]
      ≠ ([sampleRecord].map (fun d => (d.moodLevel : ℚ))).sum
          / (([sampleRecord].length : ℕ) : ℚ) := by
  refine ⟨?_, ?_, ?_, ?_⟩
  · intro data h
    simp [save_to_csv, h]
  · intro data h
    have hne : data.length ≠ 90 := by omega
    simp [save_to_csv, hne]
  · intro data h
    unfold avg_mood_before
    rw [List.take_of_length_le (by omega)]
  · unfold avg_mood_before
    simp [sampleRecord]
    norm_num

theorem stats_division_behavior_witness :
    save_to_csv (List.replicate 90 sampleRecord) true
      = ([ConsoleLine.generatedDays 90, ConsoleLine.savedTo],
          some PyErr.zeroDivisionError) ∧
    (save_to_csv (List.replicate 91 sampleRecord) true).2 = none ∧
    avg_mood_before [sampleRecord]
      = ([sampleRecord].map (fun d => (d.moodLevel : ℚ))).sum / 60 :=
  ⟨stats_division_behavior.1 _ (by simp),
   stats_division_behavior.2.1 _ (by simp),
   stats_division_behavior.2.2.1 _ (by simp)⟩
